import Mathlib

/-!
Shallow embedding of the Recognition & Enrollment Orchestrator of the
smart-door-system repository (frontend):

* `src/frontend/src/app/page.tsx` — the Recognition Attempt Controller
  (`performAutoRecognition`, `startAutoRecognition`, `stopAutoRecognition`,
  the detection interval effect and the auto-recognition interval effect),
  and the Enrollment Sequencer (`startMultiVariationCapture`,
  `captureNextVariation`, `finishMultiVariationCapture`).
* `src/frontend/src/contexts/CameraContext.tsx` — `captureImage`, `stopStream`.
* the shared type declarations (`AutoRecognitionState`, `RecognitionStatus`,
  `DoorStatus`, `ApiResponse`, `VARIATION_TYPES`).

The asynchronous controller is embedded as an explicit transition system.
`performAutoRecognition` has exactly one suspension point (the `await` of
the recognition request), so it is split into a synchronous tick phase
(`performAutoRecognitionTick`) and a response phase
(`performAutoRecognitionResponse`).

A crucial feature of the source is modelled faithfully: the 1000 ms interval
is installed by an effect whose dependency array is only
`[autoRecognition.isActive, isStreaming, modelsLoaded]` (page.tsx line 428),
and `performAutoRecognition` is a plain per-render closure.  The installed
callback therefore permanently closes over the component state of the render
at which the effect last ran: its guard reads of `recognitionStatus`,
`detectedFaces` and `autoRecognition` (lines 241-282) evaluate that stale
snapshot, while its writes (`setRecognitionStatus`, and the functional
`setAutoRecognition((prev) => ...)`) hit the live state.  Accordingly the
tick phase takes two page states — the closure snapshot and the live
state — and the installed timer is modelled as `Option PageState`, carrying
the snapshot it was installed with; `syncEffects` re-installs the timer (and
refreshes the snapshot) only when the effect dependencies change.  The
response phase uses only functional updates and response data, so it acts on
the live state alone.  The detection interval's closure (`detectFaces`) is
memoized on exactly the fields it reads from component state
(`[modelsLoaded, isStreaming, ...]`, line 211) and is an effect dependency
(line 227), so it is re-installed whenever those change and is never stale
with respect to them; it is modelled with live reads.  DOM-only side
effects (toast notifications, canvas drawing, console logging) do not touch
the controller state and are not modelled.
-/

namespace SmartDoor

/-- `RecognitionStatus` from `src/frontend/src/types` (part_005 line 74). -/
inductive RecognitionStatus
  | idle
  | scanning
  | recognized
  | unknown
deriving DecidableEq

/-- `DoorStatus` from `src/frontend/src/types` (part_005 line 73). -/
inductive DoorStatus
  | locked
  | unlocked
deriving DecidableEq

/-- `AutoRecognitionState` from `src/frontend/src/types` (part_005 lines 89-95).
Times are milliseconds since the epoch, as returned by `Date.now()`. -/
structure AutoRecognitionState where
  isActive : Bool
  attemptCount : Nat
  maxAttempts : Nat
  cooldownUntil : Option Nat
  lastAttempt : Nat
deriving DecidableEq

/-- The initial value of the `autoRecognition` state (page.tsx lines 78-84). -/
def initialAutoRecognition : AutoRecognitionState :=
  { isActive := false
    attemptCount := 0
    maxAttempts := 10
    cooldownUntil := none
    lastAttempt := 0 }

/-- The part of `FaceRecognitionResult` (part_005 lines 11-23) that the
controller reads: only `recognized` (and `name`, used solely in the DOM
notification) influence control flow. -/
structure FaceRecognitionResult where
  recognized : Bool
  name : Option String
deriving DecidableEq

/-- `ApiResponse<FaceRecognitionResult>` (part_005 lines 50-56). -/
structure ApiResponse where
  success : Bool
  result : Option FaceRecognitionResult
deriving DecidableEq

/-- Outcome of `apiService.recognizeFace`: either a parsed JSON body, or a
thrown error (non-ok HTTP status or transport failure — `api.ts` lines 19-28
rethrows every failure as an `Error`). -/
inductive ApiOutcome
  | ok (resp : ApiResponse)
  | error
deriving DecidableEq

/-- The component state of `SmartDoorSystemContent` that the controller reads
and writes (page.tsx lines 71-101).  `detectedFacesCount` stands for
`detectedFaces.length`; the face data itself never influences control flow. -/
structure PageState where
  doorStatus : DoorStatus
  recognitionStatus : RecognitionStatus
  detectedFacesCount : Nat
  isStreaming : Bool
  modelsLoaded : Bool
  auto : AutoRecognitionState
deriving DecidableEq

/-- `startAutoRecognition` (page.tsx lines 385-392): a functional
`setAutoRecognition`, hence a live-state update. -/
def startAutoRecognition (s : PageState) : PageState :=
  { s with auto := { s.auto with isActive := true, attemptCount := 0, cooldownUntil := none } }

/-- The state update of `stopAutoRecognition` (page.tsx lines 395-401), a
functional (live) update; the synchronous ref-based `clearInterval` of lines
402-405 is modelled at the system level. -/
def stopAutoRecognition (s : PageState) : PageState :=
  { s with auto := { s.auto with isActive := false, attemptCount := 0, cooldownUntil := none } }

/-- JavaScript truthiness of
`autoRecognition.cooldownUntil && now < autoRecognition.cooldownUntil`
(page.tsx line 257): `null` and `0` are falsy. -/
def cooldownActive (now : Nat) : Option Nat → Bool
  | none => false
  | some c => c != 0 && decide (now < c)

/-- The synchronous prefix of `performAutoRecognition` (page.tsx lines
230-291), up to and including issuing the recognition request.  `snap` is
the render snapshot the interval callback closed over at install time: all
guard reads (`isStreaming`, `detectedFaces.length`, `recognitionStatus`,
`autoRecognition.*`, lines 241-282) evaluate `snap`.  `live` is the current
component state, which the writes hit: the functional
`setAutoRecognition` of the max-attempts branch (lines 268-272) and the
direct `setRecognitionStatus` calls (lines 285, 380).  Returns the updated
live state and `some now` when a request was issued at time `now` (the value
captured by `const now = Date.now()` on line 254).  `capture` is the result
of `captureImage()` (line 288); when it is `null` the code throws and the
`catch` of lines 378-381 runs synchronously, setting the status back to
`idle`. -/
def performAutoRecognitionTick (now : Nat) (capture : Option String)
    (snap live : PageState) : PageState × Option Nat :=
  if snap.isStreaming = false ∨ snap.detectedFacesCount = 0 ∨
      snap.recognitionStatus = RecognitionStatus.scanning then
    (live, none)
  else if cooldownActive now snap.auto.cooldownUntil then
    (live, none)
  else if snap.auto.maxAttempts ≤ snap.auto.attemptCount then
    ({ live with auto := { live.auto with
        cooldownUntil := some (now + 30000), attemptCount := 0 } }, none)
  else if now - snap.auto.lastAttempt < 2000 then
    (live, none)
  else
    let live1 := { live with recognitionStatus := RecognitionStatus.scanning }
    match capture with
    | none => ({ live1 with recognitionStatus := RecognitionStatus.idle }, none)
    | some _ => (live1, some now)

/-- A callback scheduled with `setTimeout` by the response handler. -/
inductive TimeoutAction
  | relock
  | clearUnknown
deriving DecidableEq

/-- Whether a parsed response takes the `recognized` branch of page.tsx
line 314: `result.success && result.result` must be truthy and
`result.result.recognized` true. -/
def okRecognized (resp : ApiResponse) : Bool :=
  resp.success &&
    match resp.result with
    | some r => r.recognized
    | none => false

/-- The promise continuation of `performAutoRecognition` (page.tsx lines
294-381): everything after `await apiService.recognizeFace`.  Every state
update here is live: the attempt accounting of lines 297-301 is a functional
`setAutoRecognition` (so it reads the live `prev` state), and the status and
door writes set constants.  `reqTime` is the `now` captured before the
request.  Returns the updated live state and the list of `setTimeout`
callbacks scheduled, paired with their delays in milliseconds (the DOM
notification timeouts of lines 335-339 and 368-372, and the snapshot read of
`autoRecognition.attemptCount` on line 353 that only picks the notification,
do not touch component state and are omitted).  On a thrown error the
`catch` (lines 378-381) sets the status to `idle` and nothing else; on a
parsed response the accounting runs first, then the branches on
`result.success && result.result` and `recognized`. -/
def performAutoRecognitionResponse (reqTime : Nat) (outcome : ApiOutcome) (s : PageState) :
    PageState × List (Nat × TimeoutAction) :=
  match outcome with
  | ApiOutcome.error => ({ s with recognitionStatus := RecognitionStatus.idle }, [])
  | ApiOutcome.ok resp =>
    let s1 := { s with auto := { s.auto with
      attemptCount := s.auto.attemptCount + 1, lastAttempt := reqTime } }
    if resp.success then
      match resp.result with
      | some r =>
        if r.recognized then
          let s2 := { s1 with
            recognitionStatus := RecognitionStatus.recognized
            doorStatus := DoorStatus.unlocked }
          (stopAutoRecognition s2, [(5000, TimeoutAction.relock)])
        else
          ({ s1 with recognitionStatus := RecognitionStatus.unknown },
            [(1000, TimeoutAction.clearUnknown)])
      | none => (s1, [])
    else (s1, [])

/-- Running a scheduled timeout callback: the relock of page.tsx lines
344-347 and the unknown-display reset of line 375.  Both use only the
(stable) state setters, hence live writes. -/
def runTimeout (a : TimeoutAction) (s : PageState) : PageState :=
  match a with
  | TimeoutAction.relock =>
    { s with doorStatus := DoorStatus.locked, recognitionStatus := RecognitionStatus.idle }
  | TimeoutAction.clearUnknown =>
    { s with recognitionStatus := RecognitionStatus.idle }

/-- The dependency array of the auto-recognition interval effect
(page.tsx line 428): `[autoRecognition.isActive, isStreaming, modelsLoaded]`.
Changes of `recognitionStatus`, `detectedFaces` or the attempt counters do
not re-run the effect, so they never refresh the interval's closure. -/
def autoDepsOf (p : PageState) : Bool × Bool × Bool :=
  (p.auto.isActive, p.isStreaming, p.modelsLoaded)

/-- Whole-system state: the live component state together with the
scheduler resources.  `pending` holds the request times of the recognition
requests currently in flight (oldest first); `timeouts` the scheduled
`setTimeout` callbacks; `autoTimer` the installed 1000 ms auto-recognition
interval, carrying the render snapshot its callback closed over (page.tsx
lines 409-428), or `none` when no interval is installed; `autoDeps` the
effect's dependency values as of the last flush, used to decide whether the
effect re-runs; `detectionTimer` whether the 300 ms detection interval
(lines 214-227) is installed; `detPending` the number of detection passes
currently in flight. -/
structure SysState where
  page : PageState
  pending : List Nat
  timeouts : List (Nat × TimeoutAction)
  autoTimer : Option PageState
  autoDeps : Bool × Bool × Bool
  detectionTimer : Bool
  detPending : Nat
deriving DecidableEq

/-- React flushing the interval effects after a render.  The
auto-recognition effect (page.tsx lines 409-428) re-runs only when its
dependency array changed; when it re-runs it clears the old interval and,
if `isActive && isStreaming && modelsLoaded`, installs a new one whose
callback closes over the current state.  When the dependencies are
unchanged the installed interval — and its stale snapshot — survive.  The
detection interval (lines 214-227) runs iff `isStreaming && modelsLoaded`;
its callback is re-created (and the effect re-run) whenever either of those
changes, so a plain flag suffices. -/
def syncEffects (s : SysState) : SysState :=
  { s with
    autoTimer :=
      if autoDepsOf s.page = s.autoDeps then s.autoTimer
      else if s.page.auto.isActive && s.page.isStreaming && s.page.modelsLoaded then
        some s.page
      else none
    autoDeps := autoDepsOf s.page
    detectionTimer := s.page.isStreaming && s.page.modelsLoaded }

/-- The discrete events of the single-threaded cooperative scheduler.
`tick now capture` is a firing of the installed 1000 ms auto-recognition
interval with `Date.now() = now` and `captureImage() = capture`; `respond`
delivers the response of the oldest in-flight recognition request;
`fireTimeout` fires the oldest scheduled timeout; `detTick videoReady` is a
firing of the 300 ms detection interval (`videoReady` bundles the
video/canvas-element guards of `detectFaces`, page.tsx lines 150-163);
`detDone n` is the completion of one detection pass reporting `n` faces
(`setDetectedFaces`, line 202); `stopStreamEv` is `stopStream()` of
CameraContext.tsx lines 211-221 (it sets `isStreaming` to false; stopping
the hardware tracks has no further effect on this state); `streamStarted` /
`modelsReady` are the external completions that set `isStreaming` /
`modelsLoaded` to true. -/
inductive Event
  | tick (now : Nat) (capture : Option String)
  | respond (outcome : ApiOutcome)
  | fireTimeout
  | detTick (videoReady : Bool)
  | detDone (faces : Nat)
  | startAuto
  | stopAuto
  | stopStreamEv
  | streamStarted
  | modelsReady
deriving DecidableEq

/-- The effect of one event on the raw system state (before the effect
flush).  A `tick` fires only while an interval is installed and evaluates
its guards on the interval's snapshot.  A `respond` taking the recognized
branch calls `stopAutoRecognition`, whose ref-based `clearInterval` (page.tsx
lines 402-405) removes the interval synchronously, as does the `stopAuto`
event itself.  `detectFaces` re-checks `modelsLoaded` and `isStreaming`
(page.tsx lines 150-158) — live values, as its closure is refreshed on any
change of them — and has no single-flight guard, so every firing with the
guards true starts a new pass. -/
def applyEvent (e : Event) (s : SysState) : SysState :=
  match e with
  | Event.tick now capture =>
    match s.autoTimer with
    | none => s
    | some snap =>
      let pr := performAutoRecognitionTick now capture snap s.page
      { s with
        page := pr.1
        pending := s.pending ++ (match pr.2 with | some t => [t] | none => []) }
  | Event.respond outcome =>
    match s.pending with
    | [] => s
    | t :: rest =>
      let pr := performAutoRecognitionResponse t outcome s.page
      { s with
        page := pr.1
        pending := rest
        timeouts := s.timeouts ++ pr.2
        autoTimer :=
          match outcome with
          | ApiOutcome.ok resp => if okRecognized resp then none else s.autoTimer
          | ApiOutcome.error => s.autoTimer }
  | Event.fireTimeout =>
    match s.timeouts with
    | [] => s
    | (_, a) :: rest => { s with page := runTimeout a s.page, timeouts := rest }
  | Event.detTick videoReady =>
    if s.detectionTimer && videoReady && s.page.modelsLoaded && s.page.isStreaming then
      { s with detPending := s.detPending + 1 }
    else s
  | Event.detDone faces =>
    if 0 < s.detPending then
      { s with detPending := s.detPending - 1
               page := { s.page with detectedFacesCount := faces } }
    else s
  | Event.startAuto => { s with page := startAutoRecognition s.page }
  | Event.stopAuto => { s with page := stopAutoRecognition s.page, autoTimer := none }
  | Event.stopStreamEv => { s with page := { s.page with isStreaming := false } }
  | Event.streamStarted => { s with page := { s.page with isStreaming := true } }
  | Event.modelsReady => { s with page := { s.page with modelsLoaded := true } }

/-- One scheduler step: the event, then React's effect flush. -/
def step (e : Event) (s : SysState) : SysState :=
  syncEffects (applyEvent e s)

/-- Running a list of events in order. -/
def run (es : List Event) (s : SysState) : SysState :=
  es.foldl (fun s e => step e s) s

/-- The initial page state (page.tsx lines 71-84: door locked, status idle,
no faces, not streaming, models not loaded). -/
def initialPage : PageState :=
  { doorStatus := DoorStatus.locked
    recognitionStatus := RecognitionStatus.idle
    detectedFacesCount := 0
    isStreaming := false
    modelsLoaded := false
    auto := initialAutoRecognition }

/-- The initial system state: nothing in flight, no timers installed; the
effect's first (mount) run recorded the initial dependency values and,
`isActive` being false, installed nothing. -/
def initialSys : SysState :=
  { page := initialPage
    pending := []
    timeouts := []
    autoTimer := none
    autoDeps := autoDepsOf initialPage
    detectionTimer := false
    detPending := 0 }

/-- One entry of `VARIATION_TYPES` (part_005 lines 77-85). -/
structure Variation where
  value : String
  label : String
  description : String
deriving DecidableEq

/-- The fixed 7-entry variation catalog `VARIATION_TYPES`
(part_005 lines 77-85). -/
def VARIATION_TYPES : List Variation :=
  [ { value := "default", label := "Mặc định", description := "Ảnh thường, nhìn thẳng" },
    { value := "with_glasses", label := "Đeo kính", description := "Ảnh có đeo kính" },
    { value := "no_glasses", label := "Không kính", description := "Ảnh không đeo kính" },
    { value := "left_angle", label := "Góc trái", description := "Nghiêng đầu sang trái 15-30°" },
    { value := "right_angle", label := "Góc phải", description := "Nghiêng đầu sang phải 15-30°" },
    { value := "slight_smile", label := "Mỉm cười", description := "Ảnh có nụ cười nhẹ" },
    { value := "serious", label := "Nghiêm túc", description := "Ảnh biểu cảm nghiêm túc" } ]

/-- The multi-variation capture state of `SmartDoorSystemContent`
(page.tsx lines 91-95). -/
structure EnrollState where
  isCapturingVariations : Bool
  currentVariationIndex : Nat
  capturedVariations : List String
  personNameForVariations : String
deriving DecidableEq

/-- `startMultiVariationCapture` (page.tsx lines 431-436). -/
def startMultiVariationCapture (personName : String) (_s : EnrollState) : EnrollState :=
  { isCapturingVariations := true
    currentVariationIndex := 0
    capturedVariations := []
    personNameForVariations := personName }

/-- The state updates of `finishMultiVariationCapture` (page.tsx lines
491-516): leaves capture mode and resets the session fields. -/
def finishMultiVariationCapture (s : EnrollState) : EnrollState :=
  { s with
    isCapturingVariations := false
    currentVariationIndex := 0
    capturedVariations := []
    personNameForVariations := "" }

/-- Outcome of the `addFaceVariation` service call in `captureNextVariation`:
resolved `true`, resolved `false`, or rejected (the hook catches service
errors and resolves `false`, but page.tsx still has a `catch`, so both
failure shapes are modelled). -/
inductive EnrollOutcome
  | svcSuccess
  | svcFailure
  | svcError
deriving DecidableEq

/-- `captureNextVariation` (page.tsx lines 438-489).  `capture` is the
result of `captureImage()`; `svc` the outcome of the `addFaceVariation`
call.  When the index has reached the end of the catalog the function calls
`finishMultiVariationCapture` and returns; a `null` capture alerts and
returns with the state unchanged; a failed or throwing service call leaves
the state unchanged (the `catch` of lines 485-488 only alerts); on success
the current variation value is appended and the index advanced by one
(the next-variation notification of lines 463-483 is DOM-only).  Unlike the
interval callback, this function is invoked from a fresh per-render click
handler and uses functional updates, so its reads are not stale. -/
def captureNextVariation (capture : Option String) (svc : EnrollOutcome) (s : EnrollState) :
    EnrollState :=
  if VARIATION_TYPES.length ≤ s.currentVariationIndex then
    finishMultiVariationCapture s
  else
    match capture with
    | none => s
    | some _ =>
      match svc with
      | EnrollOutcome.svcSuccess =>
        match VARIATION_TYPES.get? s.currentVariationIndex with
        | some v =>
          { s with
            capturedVariations := s.capturedVariations ++ [v.value]
            currentVariationIndex := s.currentVariationIndex + 1 }
        | none => s
      | EnrollOutcome.svcFailure => s
      | EnrollOutcome.svcError => s

/-- The state of the `<video>` element read by `captureImage`
(CameraContext.tsx lines 239-299).  `frameData` is the JPEG data URL that
`canvas.toDataURL` would produce for the current frame. -/
structure VideoElement where
  videoWidth : Nat
  videoHeight : Nat
  readyState : Nat
  paused : Bool
  ended : Bool
  frameData : String
deriving DecidableEq

/-- The browser environment of a capture: whether `canvas.getContext` yields
a context and whether drawing/encoding throws (the `catch` of lines
295-298). -/
structure CanvasEnv where
  ctxAvailable : Bool
  drawThrows : Bool
deriving DecidableEq

/-- `captureImage` of the shared camera context (CameraContext.tsx lines
239-299), the `captureFrame()` of the Device Resource Manager.  `video` is
`videoRef.current` (`none` when the ref is empty).  Every guard of the
source is checked in order; all failures return `null` (here `none`), and
the drawing exception is caught and also returns `null`, so the function is
total and never raises past its boundary. -/
def captureImage (video : Option VideoElement) (isStreaming : Bool) (env : CanvasEnv) :
    Option String :=
  match video with
  | none => none
  | some v =>
    if isStreaming = false then none
    else if v.paused = true ∨ v.ended = true then none
    else if v.readyState < 2 then none
    else if v.videoWidth = 0 ∨ v.videoHeight = 0 then none
    else if env.ctxAvailable = false then none
    else if env.drawThrows = true then none
    else some v.frameData

/-- A parsed recognition response with `recognized = false`. -/
def unknownResponse : ApiOutcome :=
  ApiOutcome.ok { success := true, result := some { recognized := false, name := none } }

/-- Concrete scenario: models load, the stream starts, one detection pass
reports one face, the controller is started (installing the interval with a
snapshot of that moment: status idle, one face, all counters zero), and the
tick at t = 10000 issues the first recognition request. -/
def startupTrace : List Event :=
  [ Event.modelsReady, Event.streamStarted, Event.detTick true, Event.detDone 1,
    Event.startAuto, Event.tick 10000 (some "img") ]

/-- Concrete scenario: no response ever arrives for the request issued at
t = 10000, yet the tick at t = 11000 — whose guards evaluate the stale
install-time snapshot (status idle, `lastAttempt` 0) — issues a second
request while the live status is Scanning and the first request is still in
flight. -/
def notBlockedTrace : List Event :=
  startupTrace ++ [ Event.tick 11000 (some "img") ]

/-- Concrete scenario: the controller is stopped and immediately restarted
while the live status is Scanning, so the freshly installed interval's
snapshot itself has status Scanning. -/
def scanSnapshotTrace : List Event :=
  startupTrace ++ [ Event.stopAuto, Event.startAuto ]

/-- Concrete scenario: `stopAutoRecognition()` is called while the request
issued at t = 10000 is still in flight, and the response arrives after the
stop. -/
def lateResponseTrace : List Event :=
  startupTrace ++ [ Event.stopAuto, Event.respond unknownResponse ]

/-- Concrete scenario: the request issued at t = 10000 comes back as a
well-formed response with `success = false`. -/
def nonSuccessTrace : List Event :=
  startupTrace ++ [ Event.respond (ApiOutcome.ok { success := false, result := none }) ]

/-- Concrete scenario: ten requests (t = 10000 … 19000) each answered with
`recognized = false`, driving the live `attemptCount` to 10 = `maxAttempts`
while the interval's snapshot still holds `attemptCount = 0`. -/
def tenFailuresTrace : List Event :=
  startupTrace ++
    [ Event.respond unknownResponse, Event.tick 11000 (some "img"),
      Event.respond unknownResponse, Event.tick 12000 (some "img"),
      Event.respond unknownResponse, Event.tick 13000 (some "img"),
      Event.respond unknownResponse, Event.tick 14000 (some "img"),
      Event.respond unknownResponse, Event.tick 15000 (some "img"),
      Event.respond unknownResponse, Event.tick 16000 (some "img"),
      Event.respond unknownResponse, Event.tick 17000 (some "img"),
      Event.respond unknownResponse, Event.tick 18000 (some "img"),
      Event.respond unknownResponse, Event.tick 19000 (some "img"),
      Event.respond unknownResponse ]

/-- Concrete scenario: with the live `attemptCount` at `maxAttempts` and no
cooldown armed, the next tick still issues an 11th request (its guards see
the snapshot's count of 0). -/
def overflowTrace : List Event :=
  tenFailuresTrace ++ [ Event.tick 20000 (some "img") ]

/-- Concrete scenario: after the ten failures the stream is stopped and
restarted, so the effect re-runs and installs a fresh interval whose
snapshot now carries the saturated `attemptCount = 10`. -/
def staleArmTrace : List Event :=
  tenFailuresTrace ++ [ Event.stopStreamEv, Event.streamStarted ]

/-- … the tick at t = 30000 then takes the max-attempts branch and arms the
live cooldown to 60000, resetting the live count to 0. -/
def armedOnceTrace : List Event :=
  staleArmTrace ++ [ Event.tick 30000 (some "img") ]

/-- … the tick at t = 31000 still sees the snapshot's count of 10 and
re-arms the cooldown to 61000 from a live count of 0. -/
def armedTwiceTrace : List Event :=
  armedOnceTrace ++ [ Event.tick 31000 (some "img") ]

/-- … and at t = 61000, past the originally armed deadline of 60000, the
tick arms yet again (to 91000) instead of resuming attempts. -/
def slidingDeadlineTrace : List Event :=
  armedTwiceTrace ++ [ Event.tick 61000 (some "img") ]

/-- `n` consecutive calls of `captureNextVariation` with a successful
capture and a successful service call. -/
def captureSuccessIter (img : String) : Nat → EnrollState → EnrollState
  | 0, s => s
  | n + 1, s => captureSuccessIter img n (captureNextVariation (some img) EnrollOutcome.svcSuccess s)

/-- An enrollment state outside any session. -/
def idleEnroll : EnrollState :=
  { isCapturingVariations := false
    currentVariationIndex := 0
    capturedVariations := []
    personNameForVariations := "" }

/-- A concrete page state with an armed cooldown: one face in view, the
controller active, `cooldownUntil = 30000`, `attemptCount = 0`,
`lastAttempt = 5000`. -/
def cooldownPage : PageState :=
  { doorStatus := DoorStatus.locked
    recognitionStatus := RecognitionStatus.idle
    detectedFacesCount := 1
    isStreaming := true
    modelsLoaded := true
    auto :=
      { isActive := true
        attemptCount := 0
        maxAttempts := 10
        cooldownUntil := some 30000
        lastAttempt := 5000 } }

/-- A concrete system state whose interval was installed exactly at
`cooldownPage`, so its snapshot and the live state agree. -/
def cooldownSys : SysState :=
  { page := cooldownPage
    pending := []
    timeouts := []
    autoTimer := some cooldownPage
    autoDeps := autoDepsOf cooldownPage
    detectionTimer := true
    detPending := 0 }

/-! ### Helper lemmas -/

theorem syncEffects_page (s : SysState) : (syncEffects s).page = s.page := rfl

theorem syncEffects_pending (s : SysState) : (syncEffects s).pending = s.pending := rfl

/-- A state whose effect baseline and detection flag agree with its page is
a fixed point of the effect flush; in particular every `step` result is. -/
theorem syncEffects_flushed (s : SysState) (h1 : s.autoDeps = autoDepsOf s.page)
    (h2 : s.detectionTimer = (s.page.isStreaming && s.page.modelsLoaded)) :
    syncEffects s = s := by
  unfold syncEffects
  rw [if_pos h1.symm, ← h1, ← h2]

theorem step_flushed (e : Event) (s : SysState) :
    (step e s).autoDeps = autoDepsOf (step e s).page ∧
    (step e s).detectionTimer = ((step e s).page.isStreaming && (step e s).page.modelsLoaded) :=
  ⟨rfl, rfl⟩

theorem runTimeout_auto (a : TimeoutAction) (p : PageState) :
    (runTimeout a p).auto = p.auto := by
  cases a <;> rfl

/-- A tick whose snapshot has status `scanning` returns early with the live
state untouched and no request (page.tsx lines 241-252). -/
theorem performAutoRecognitionTick_of_scanning (now : Nat) (cap : Option String)
    (snap live : PageState) (h : snap.recognitionStatus = RecognitionStatus.scanning) :
    performAutoRecognitionTick now cap snap live = (live, none) := by
  unfold performAutoRecognitionTick
  rw [if_pos (Or.inr (Or.inr h))]

/-- At the system level, a tick of an interval whose snapshot has status
`scanning` changes nothing at all. -/
theorem applyEvent_tick_of_scanning (now : Nat) (cap : Option String)
    (s : SysState) (snap : PageState) (ht : s.autoTimer = some snap)
    (h : snap.recognitionStatus = RecognitionStatus.scanning) :
    applyEvent (Event.tick now cap) s = s := by
  simp only [applyEvent, ht, performAutoRecognitionTick_of_scanning now cap snap s.page h,
    List.append_nil]
  rw [← ht]

/-- A tick whose snapshot has an active cooldown returns early with the
live state untouched and no request (page.tsx lines 257-263). -/
theorem performAutoRecognitionTick_of_cooldown (now : Nat) (cap : Option String)
    (snap live : PageState) (c : Nat) (hc : snap.auto.cooldownUntil = some c)
    (h0 : c ≠ 0) (hlt : now < c) :
    performAutoRecognitionTick now cap snap live = (live, none) := by
  unfold performAutoRecognitionTick
  by_cases h1 : snap.isStreaming = false ∨ snap.detectedFacesCount = 0 ∨
      snap.recognitionStatus = RecognitionStatus.scanning
  · rw [if_pos h1]
  · rw [if_neg h1, if_pos]
    simp [cooldownActive, hc, h0, hlt]

/-- A tick whose snapshot passes the early guards and has
`attemptCount ≥ maxAttempts` takes the max-attempts branch (page.tsx lines
266-274): it arms the **live** cooldown to `now + 30000` and resets the
**live** `attemptCount` to 0 — regardless of the live counters — and
issues no request. -/
theorem performAutoRecognitionTick_arm (now : Nat) (cap : Option String)
    (snap live : PageState)
    (h1 : snap.isStreaming = true) (h2 : snap.detectedFacesCount ≠ 0)
    (h3 : snap.recognitionStatus ≠ RecognitionStatus.scanning)
    (hcool : cooldownActive now snap.auto.cooldownUntil = false)
    (hmax : snap.auto.maxAttempts ≤ snap.auto.attemptCount) :
    performAutoRecognitionTick now cap snap live =
      ({ live with auto := { live.auto with
          cooldownUntil := some (now + 30000), attemptCount := 0 } }, none) := by
  unfold performAutoRecognitionTick
  rw [if_neg (by simp [h1, h2, h3]), if_neg (by simp [hcool]), if_pos hmax]

/-- A tick whose snapshot passes every guard issues a request and sets the
live status to `scanning`, regardless of the live state. -/
theorem performAutoRecognitionTick_request (now : Nat) (img : String)
    (snap live : PageState)
    (h1 : snap.isStreaming = true) (h2 : snap.detectedFacesCount ≠ 0)
    (h3 : snap.recognitionStatus ≠ RecognitionStatus.scanning)
    (hcool : cooldownActive now snap.auto.cooldownUntil = false)
    (hcount : snap.auto.attemptCount < snap.auto.maxAttempts)
    (hgap : 2000 ≤ now - snap.auto.lastAttempt) :
    performAutoRecognitionTick now (some img) snap live =
      ({ live with recognitionStatus := RecognitionStatus.scanning }, some now) := by
  unfold performAutoRecognitionTick
  rw [if_neg (by simp [h1, h2, h3]), if_neg (by simp [hcool]),
    if_neg (Nat.not_le.mpr hcount), if_neg (Nat.not_lt.mpr hgap)]

/-- A response never activates the controller: `isActive` is either kept or
set to false. -/
theorem performAutoRecognitionResponse_isActive (t : Nat) (o : ApiOutcome) (p : PageState)
    (h : p.auto.isActive = false) :
    (performAutoRecognitionResponse t o p).1.auto.isActive = false := by
  unfold performAutoRecognitionResponse
  cases o with
  | error => exact h
  | ok resp =>
    by_cases hs : resp.success
    · cases hr : resp.result with
      | none => simp [hs, hr, h]
      | some r =>
        by_cases hrec : r.recognized
        · simp [hs, hr, hrec, stopAutoRecognition]
        · simp [hs, hr, hrec, h]
    · simp [hs, h]

/-! ### Claim C1 -/

/-- C1 counterexample: in the concrete startup scenario the tick at
t = 10000 enters Scanning and issues a recognition request (it is pending),
yet `attemptCount` is still 0 and `lastAttempt` still 0 — the attempt
accounting did **not** happen at request time, contradicting the claim that
`attemptCount` is incremented and `lastAttemptAt` set before the request is
issued. -/
theorem C1_counterexample :
    (run startupTrace initialSys).pending = [10000] ∧
    (run startupTrace initialSys).page.recognitionStatus = RecognitionStatus.scanning ∧
    (run startupTrace initialSys).page.auto.attemptCount = 0 ∧
    (run startupTrace initialSys).page.auto.lastAttempt = 0 := by
  decide

/-- C1 (amended): the attempt accounting happens at response time, not
request time.  (1) A tick that issues a request leaves the whole live
`autoRecognition` control block unchanged (it only sets the status to
Scanning and records the request time in the issued request); (2) a parsed
response then sets `lastAttempt` to the request-time timestamp and, on
every non-recognized outcome, increments `attemptCount`; (3) a thrown
transport/parse failure leaves the control block unchanged entirely.
(4) A response that never arrives does not block the loop — but not for the
claimed reason: the interval callback's guards evaluate the stale snapshot
captured at install time (the effect dependencies exclude the status and
the counters), so a tick whose snapshot passes the guards issues a request
no matter what the live state is, and (5) concretely, with the t = 10000
request still unanswered, the tick at t = 11000 issues a second request. -/
theorem C1_attempt_accounting_at_response_time :
    (∀ (now : Nat) (cap : Option String) (snap live live1 : PageState) (t : Nat),
        performAutoRecognitionTick now cap snap live = (live1, some t) →
        live1.auto = live.auto ∧ t = now ∧
          live1.recognitionStatus = RecognitionStatus.scanning) ∧
    (∀ (reqTime : Nat) (resp : ApiResponse) (p : PageState),
        (performAutoRecognitionResponse reqTime (ApiOutcome.ok resp) p).1.auto.lastAttempt
            = reqTime ∧
        (okRecognized resp = false →
          (performAutoRecognitionResponse reqTime (ApiOutcome.ok resp) p).1.auto.attemptCount
              = p.auto.attemptCount + 1)) ∧
    (∀ (reqTime : Nat) (p : PageState),
        (performAutoRecognitionResponse reqTime ApiOutcome.error p).1.auto = p.auto) ∧
    (∀ (now : Nat) (img : String) (snap live : PageState),
        snap.isStreaming = true → snap.detectedFacesCount ≠ 0 →
        snap.recognitionStatus ≠ RecognitionStatus.scanning →
        cooldownActive now snap.auto.cooldownUntil = false →
        snap.auto.attemptCount < snap.auto.maxAttempts →
        2000 ≤ now - snap.auto.lastAttempt →
        (performAutoRecognitionTick now (some img) snap live).2 = some now) ∧
    (run notBlockedTrace initialSys).pending = [10000, 11000] := by
  refine ⟨?_, ?_, ?_, ?_, by decide⟩
  · intro now cap snap live live1 t h
    unfold performAutoRecognitionTick at h
    split_ifs at h with h1 h2 h3 h4
    · exact absurd (congrArg Prod.snd h) (by simp)
    · exact absurd (congrArg Prod.snd h) (by simp)
    · exact absurd (congrArg Prod.snd h) (by simp)
    · exact absurd (congrArg Prod.snd h) (by simp)
    · cases hcap : cap with
      | none =>
        rw [hcap] at h
        exact absurd (congrArg Prod.snd h) (by simp)
      | some img =>
        rw [hcap] at h
        simp only [Prod.mk.injEq, Option.some.injEq] at h
        obtain ⟨hp, ht⟩ := h
        subst hp
        exact ⟨rfl, ht.symm, rfl⟩
  · intro reqTime resp p
    unfold performAutoRecognitionResponse okRecognized
    by_cases hs : resp.success
    · cases hr : resp.result with
      | none => simp [hs, hr]
      | some r =>
        by_cases hrec : r.recognized
        · simp [hs, hr, hrec, stopAutoRecognition]
        · simp [hs, hr, hrec]
    · simp [hs]
  · intro reqTime p
    rfl
  · intro now img snap live h1 h2 h3 hcool hcount hgap
    rw [performAutoRecognitionTick_request now img snap live h1 h2 h3 hcool hcount hgap]

/-- C1 witness: at a concrete non-recognized response the amended theorem
yields the response-time increment. -/
theorem C1_witness :
    okRecognized { success := false, result := none } = false ∧
    (performAutoRecognitionResponse 10000
        (ApiOutcome.ok { success := false, result := none }) initialPage).1.auto.attemptCount
      = initialPage.auto.attemptCount + 1 :=
  ⟨by decide,
    (C1_attempt_accounting_at_response_time.2.1 10000
      { success := false, result := none } initialPage).2 (by decide)⟩

/-! ### Claim C2 -/

/-- C2 counterexample: after the startup scenario the live controller is in
Scanning with the t = 10000 request outstanding; the next scheduling tick at
t = 11000 is **not** a no-op — its guards evaluate the interval's stale
install-time snapshot (status idle, counters zero), so it issues a second
request, leaving two attempts outstanding at the same instant. -/
theorem C2_counterexample :
    (run startupTrace initialSys).page.recognitionStatus = RecognitionStatus.scanning ∧
    (run startupTrace initialSys).pending = [10000] ∧
    (run notBlockedTrace initialSys).pending = [10000, 11000] ∧
    (run notBlockedTrace initialSys).pending.length = 2 := by
  decide

/-- C2 (amended): the Scanning guard is evaluated on the interval's
install-time snapshot, not on the live state.  (1) A tick of an interval
whose **snapshot** has status Scanning is a no-op that issues no request
and changes no state; but (2) a tick observed while only the **live**
status is Scanning passes the guard and issues a further request, so the
controller can have two outstanding attempts at the same instant (the
`notBlockedTrace` interleaving reaches two). -/
theorem C2_single_flight_guard :
    (∀ (now : Nat) (cap : Option String) (s : SysState) (snap : PageState),
        s.autoTimer = some snap →
        snap.recognitionStatus = RecognitionStatus.scanning →
        applyEvent (Event.tick now cap) s = s) ∧
    (run notBlockedTrace initialSys).pending.length = 2 :=
  ⟨fun now cap s snap ht h => applyEvent_tick_of_scanning now cap s snap ht h, by decide⟩

/-- C2 witness: the no-op part of the amended theorem at the concrete state
whose interval snapshot is in Scanning (controller stopped and restarted
mid-scan). -/
theorem C2_witness :
    (run scanSnapshotTrace initialSys).autoTimer
        = some (run scanSnapshotTrace initialSys).page ∧
    (run scanSnapshotTrace initialSys).page.recognitionStatus
        = RecognitionStatus.scanning ∧
    applyEvent (Event.tick 12000 (some "img")) (run scanSnapshotTrace initialSys)
      = run scanSnapshotTrace initialSys :=
  ⟨by decide, by decide,
    C2_single_flight_guard.1 12000 (some "img") (run scanSnapshotTrace initialSys)
      (run scanSnapshotTrace initialSys).page (by decide) (by decide)⟩

/-! ### Claim C3 -/

/-- C3: the code has no staleness guard, so a response that arrives after
`stopAutoRecognition()` is processed normally (the continuation's updates
are live functional updates and direct sets).  Immediately after the stop
the control block is reset (`attemptCount = 0`, `lastAttempt = 0`,
`isActive = false`); when the in-flight response (`recognized = false`)
then arrives, it mutates the supposedly frozen state: `attemptCount`
becomes 1, `lastAttempt` becomes 10000, the recognition status becomes
Unknown and the display-reset timeout is scheduled — contradicting the
requirement that late responses be discarded without mutating state. -/
theorem C3_late_response_mutates_state :
    (run (startupTrace ++ [Event.stopAuto]) initialSys).page.auto.attemptCount = 0 ∧
    (run (startupTrace ++ [Event.stopAuto]) initialSys).page.auto.lastAttempt = 0 ∧
    (run (startupTrace ++ [Event.stopAuto]) initialSys).page.auto.isActive = false ∧
    (run lateResponseTrace initialSys).page.auto.attemptCount = 1 ∧
    (run lateResponseTrace initialSys).page.auto.lastAttempt = 10000 ∧
    (run lateResponseTrace initialSys).page.recognitionStatus = RecognitionStatus.unknown ∧
    (run lateResponseTrace initialSys).timeouts = [(1000, TimeoutAction.clearUnknown)] := by
  decide

/-! ### Claim C4 -/

/-- C4 counterexample: `stopStream()` is called while the controller is in
Scanning (the startup scenario's request is in flight).  The stream stops
and the scheduling timer is cleared at the next effect flush, but
`isActive` is still true and the status is still Scanning — and it stays
that way after the next tick, because ticks no longer run at all.  This
contradicts the claim that the Attempt Controller is forced to Idle with
`isActive = false` by the next observable tick. -/
theorem C4_counterexample :
    (step Event.stopStreamEv (run startupTrace initialSys)).page.auto.isActive = true ∧
    (step Event.stopStreamEv (run startupTrace initialSys)).page.recognitionStatus
        = RecognitionStatus.scanning ∧
    (step (Event.tick 11000 (some "img"))
        (step Event.stopStreamEv (run startupTrace initialSys))).page.auto.isActive = true ∧
    (step (Event.tick 11000 (some "img"))
        (step Event.stopStreamEv (run startupTrace initialSys))).page.recognitionStatus
        = RecognitionStatus.scanning := by
  decide

/-- C4 (amended): in any flushed state that is streaming, `stopStream()`
halts the Detection Poller and the Attempt Controller's scheduling loop —
after the stop and its effect flush both interval timers are cleared, and
subsequent scheduling or detection ticks change nothing, with no unhandled
failure (every transition is total).  However, it does **not** force the
controller to Idle: `isActive` and the recognition status are left exactly
as they were. -/
theorem C4_stopStream_halts_timers :
    ∀ (s : SysState), s.autoDeps = autoDepsOf s.page → s.page.isStreaming = true →
      (step Event.stopStreamEv s).autoTimer = none ∧
      (step Event.stopStreamEv s).detectionTimer = false ∧
      (step Event.stopStreamEv s).page.auto.isActive = s.page.auto.isActive ∧
      (step Event.stopStreamEv s).page.recognitionStatus = s.page.recognitionStatus ∧
      (∀ (now : Nat) (cap : Option String),
          step (Event.tick now cap) (step Event.stopStreamEv s)
            = step Event.stopStreamEv s) ∧
      (∀ (b : Bool),
          step (Event.detTick b) (step Event.stopStreamEv s)
            = step Event.stopStreamEv s) := by
  intro s hflush hstr
  have hdeps : autoDepsOf { s.page with isStreaming := false } ≠ s.autoDeps := by
    rw [hflush]
    simp [autoDepsOf, hstr]
  have hnone : (step Event.stopStreamEv s).autoTimer = none := by
    show (syncEffects { s with page := { s.page with isStreaming := false } }).autoTimer = none
    unfold syncEffects
    rw [if_neg hdeps]
    simp
  have hdet : (step Event.stopStreamEv s).detectionTimer = false := by
    simp [step, applyEvent, syncEffects]
  refine ⟨hnone, hdet, rfl, rfl, ?_, ?_⟩
  · intro now cap
    have happ : applyEvent (Event.tick now cap) (step Event.stopStreamEv s)
        = step Event.stopStreamEv s := by
      simp only [applyEvent, hnone]
    show syncEffects (applyEvent (Event.tick now cap) (step Event.stopStreamEv s))
        = step Event.stopStreamEv s
    rw [happ]
    exact syncEffects_flushed _ (step_flushed _ _).1 (step_flushed _ _).2
  · intro b
    have happ : applyEvent (Event.detTick b) (step Event.stopStreamEv s)
        = step Event.stopStreamEv s := by
      simp only [applyEvent]
      rw [if_neg]
      rw [hdet]
      simp
    show syncEffects (applyEvent (Event.detTick b) (step Event.stopStreamEv s))
        = step Event.stopStreamEv s
    rw [happ]
    exact syncEffects_flushed _ (step_flushed _ _).1 (step_flushed _ _).2

/-- C4 witness: the amended theorem at the concrete streaming state reached
by the startup scenario. -/
theorem C4_witness :
    (run startupTrace initialSys).autoDeps = autoDepsOf (run startupTrace initialSys).page ∧
    (run startupTrace initialSys).page.isStreaming = true ∧
    (step Event.stopStreamEv (run startupTrace initialSys)).autoTimer = none :=
  ⟨by decide, by decide,
    (C4_stopStream_halts_timers (run startupTrace initialSys) (by decide) (by decide)).1⟩

/-! ### Claim C5 -/

/-- C5 counterexample: a well-formed response with `success = false` falls
through both branches of the response handler, so the live status stays
Scanning — the controller is never moved to Unknown and no display-delay
return to Idle is scheduled; a transport failure returns the controller
directly to Idle without ever showing Unknown; and the attempt that brings
the live `attemptCount` to `maxAttempts` arms no cooldown and resets
nothing (the arming branch only ever tests the interval's stale snapshot
count). -/
theorem C5_counterexample :
    (run nonSuccessTrace initialSys).page.recognitionStatus = RecognitionStatus.scanning ∧
    (run nonSuccessTrace initialSys).timeouts = [] ∧
    (run (startupTrace ++ [Event.respond ApiOutcome.error]) initialSys).page.recognitionStatus
        = RecognitionStatus.idle ∧
    (run tenFailuresTrace initialSys).page.auto.attemptCount = 10 ∧
    (run tenFailuresTrace initialSys).page.auto.cooldownUntil = none := by
  decide

/-- C5 (amended): the failure paths behave as follows.  (1) A well-formed
success response with `recognized = false` moves the controller to Unknown,
leaves `isActive` untouched and schedules the 1000 ms display-delay reset,
(2) whose firing returns the status to Idle.  (3) A thrown transport/parse
failure sets the status directly to Idle (never a crash — the transition is
total) without visiting Unknown and changes nothing else.  (4) A well-formed
non-success response leaves the recognition status unchanged (Scanning, when
one is outstanding) and schedules nothing — the attempt dies silently after
incrementing the counters.  (5) The max-attempts branch tests the
interval's install-time snapshot, not the live count: when the snapshot's
`attemptCount ≥ maxAttempts` (and its other guards pass), a tick arms the
live `cooldownUntil = tick-time + 30000` and resets the live
`attemptCount` to 0, leaving `isActive` and every other live field
unchanged; when the snapshot count is below the maximum the branch is never
taken, no matter how large the live count has grown. -/
theorem C5_unsuccessful_outcomes :
    (∀ (reqTime : Nat) (p : PageState) (r : FaceRecognitionResult),
        r.recognized = false →
        (performAutoRecognitionResponse reqTime
            (ApiOutcome.ok { success := true, result := some r }) p).1.recognitionStatus
            = RecognitionStatus.unknown ∧
        (performAutoRecognitionResponse reqTime
            (ApiOutcome.ok { success := true, result := some r }) p).1.auto.isActive
            = p.auto.isActive ∧
        (performAutoRecognitionResponse reqTime
            (ApiOutcome.ok { success := true, result := some r }) p).2
            = [(1000, TimeoutAction.clearUnknown)]) ∧
    (∀ (p : PageState),
        (runTimeout TimeoutAction.clearUnknown p).recognitionStatus
          = RecognitionStatus.idle) ∧
    (∀ (reqTime : Nat) (p : PageState),
        performAutoRecognitionResponse reqTime ApiOutcome.error p
          = ({ p with recognitionStatus := RecognitionStatus.idle }, [])) ∧
    (∀ (reqTime : Nat) (p : PageState) (resp : ApiResponse),
        resp.success = false →
        (performAutoRecognitionResponse reqTime (ApiOutcome.ok resp) p).1.recognitionStatus
            = p.recognitionStatus ∧
        (performAutoRecognitionResponse reqTime (ApiOutcome.ok resp) p).2 = []) ∧
    (∀ (now : Nat) (cap : Option String) (snap live : PageState),
        snap.isStreaming = true → snap.detectedFacesCount ≠ 0 →
        snap.recognitionStatus ≠ RecognitionStatus.scanning →
        cooldownActive now snap.auto.cooldownUntil = false →
        snap.auto.maxAttempts ≤ snap.auto.attemptCount →
        performAutoRecognitionTick now cap snap live =
          ({ live with auto := { live.auto with
              cooldownUntil := some (now + 30000), attemptCount := 0 } }, none)) := by
  refine ⟨?_, fun p => rfl, fun reqTime p => rfl, ?_, ?_⟩
  · intro reqTime p r hr
    unfold performAutoRecognitionResponse
    simp [hr]
  · intro reqTime p resp hs
    unfold performAutoRecognitionResponse
    simp [hs]
  · intro now cap snap live h1 h2 h3 hcool hmax
    exact performAutoRecognitionTick_arm now cap snap live h1 h2 h3 hcool hmax

/-- C5 witness: the amended theorem at a concrete `recognized = false`
response. -/
theorem C5_witness :
    ({ recognized := false, name := none } : FaceRecognitionResult).recognized = false ∧
    (performAutoRecognitionResponse 10000
        (ApiOutcome.ok { success := true, result := some { recognized := false, name := none } })
        initialPage).1.recognitionStatus = RecognitionStatus.unknown :=
  ⟨rfl,
    (C5_unsuccessful_outcomes.1 10000 initialPage { recognized := false, name := none } rfl).1⟩

/-! ### Claim C6 -/

/-- C6 counterexample: the cooldown guards evaluate the interval's stale
snapshot, so the claim fails in both directions.  (1) Ten live failures
drive `attemptCount` to `maxAttempts = 10` with no cooldown ever armed, and
the next tick still issues an 11th request.  (2) After a stream restart
installs a snapshot with the saturated count, the tick at t = 30000 arms
the cooldown to 60000 and resets the live count to 0; the tick at t = 31000
then arms again — from a **live** `attemptCount` of 0, contradicting
"`cooldownUntil` is armed only in states where `attemptCount ≥
maxAttempts`" — sliding the deadline to 61000.  (3) At t = 61000, past the
first armed deadline, the tick arms yet again (deadline 91000) and issues
no request: attempts never resume automatically, contradicting the claimed
resumption. -/
theorem C6_counterexample :
    (run tenFailuresTrace initialSys).page.auto.attemptCount = 10 ∧
    (run tenFailuresTrace initialSys).page.auto.cooldownUntil = none ∧
    (run overflowTrace initialSys).pending = [20000] ∧
    (run armedOnceTrace initialSys).page.auto.cooldownUntil = some 60000 ∧
    (run armedOnceTrace initialSys).page.auto.attemptCount = 0 ∧
    (run armedTwiceTrace initialSys).page.auto.cooldownUntil = some 61000 ∧
    (run slidingDeadlineTrace initialSys).page.auto.cooldownUntil = some 91000 ∧
    (run slidingDeadlineTrace initialSys).pending = [] := by
  decide

/-- C6 (amended): the cooldown logic is evaluated on the interval's
install-time snapshot, not on the live state.  (1) A tick arms
`cooldownUntil = tick-time + 30000` on the live state (resetting the live
`attemptCount` to 0) exactly when the **snapshot's**
`attemptCount ≥ maxAttempts` and its other guards pass; (2) a tick whose
**snapshot** carries an armed, non-zero, unexpired cooldown is a complete
no-op — no new attempt starts; but (3) the live state does not gate
anything: the live `attemptCount` can reach `maxAttempts` with no cooldown
armed and attempts continuing, an arming can repeat while the live count is
0, and a saturated snapshot re-arms on every tick, sliding the deadline so
that attempts do not resume. -/
theorem C6_cooldown_snapshot_semantics :
    (∀ (now : Nat) (cap : Option String) (snap live : PageState),
        snap.isStreaming = true → snap.detectedFacesCount ≠ 0 →
        snap.recognitionStatus ≠ RecognitionStatus.scanning →
        cooldownActive now snap.auto.cooldownUntil = false →
        snap.auto.maxAttempts ≤ snap.auto.attemptCount →
        (performAutoRecognitionTick now cap snap live).1.auto.cooldownUntil
            = some (now + 30000) ∧
        (performAutoRecognitionTick now cap snap live).1.auto.attemptCount = 0 ∧
        (performAutoRecognitionTick now cap snap live).1.auto.isActive
            = live.auto.isActive ∧
        (performAutoRecognitionTick now cap snap live).2 = none) ∧
    (∀ (now : Nat) (cap : Option String) (s : SysState) (snap : PageState) (c : Nat),
        s.autoTimer = some snap →
        snap.auto.cooldownUntil = some c → c ≠ 0 → now < c →
        applyEvent (Event.tick now cap) s = s) ∧
    ((run tenFailuresTrace initialSys).page.auto.attemptCount = 10 ∧
      (run tenFailuresTrace initialSys).page.auto.cooldownUntil = none ∧
      (run overflowTrace initialSys).pending = [20000] ∧
      (run armedTwiceTrace initialSys).page.auto.cooldownUntil = some 61000 ∧
      (run slidingDeadlineTrace initialSys).pending = []) := by
  refine ⟨?_, ?_, by decide⟩
  · intro now cap snap live h1 h2 h3 hcool hmax
    rw [performAutoRecognitionTick_arm now cap snap live h1 h2 h3 hcool hmax]
    exact ⟨rfl, rfl, rfl, rfl⟩
  · intro now cap s snap c ht hc h0 hlt
    simp only [applyEvent, ht,
      performAutoRecognitionTick_of_cooldown now cap snap s.page c hc h0 hlt,
      List.append_nil]
    rw [← ht]

/-- C6 witness: in the concrete state `cooldownSys`, whose snapshot agrees
with the live page and carries `cooldownUntil = 30000` and a saturated-free
count, a tick at t = 10000 is a no-op, and the arming part at a snapshot
with a saturated count produces the armed live state. -/
theorem C6_witness :
    cooldownSys.autoTimer = some cooldownPage ∧
    cooldownPage.auto.cooldownUntil = some 30000 ∧
    applyEvent (Event.tick 10000 (some "img")) cooldownSys = cooldownSys ∧
    (performAutoRecognitionTick 30000 (some "img")
        (run staleArmTrace initialSys).page (run staleArmTrace initialSys).page).1.auto.cooldownUntil
      = some 60000 :=
  ⟨rfl, rfl,
    C6_cooldown_snapshot_semantics.2.1 10000 (some "img") cooldownSys cooldownPage 30000
      rfl rfl (by decide) (by decide),
    (C6_cooldown_snapshot_semantics.1 30000 (some "img")
      (run staleArmTrace initialSys).page (run staleArmTrace initialSys).page
      (by decide) (by decide) (by decide) (by decide) (by decide)).1⟩

/-! ### Claim C7 -/

/-- C7: the detection loop has no single-flight guard (`detectFaces` checks
only the video/model/stream guards, never whether a prior pass is still
running), so a 300 ms tick that begins while a prior pass is in flight
starts a second concurrent pass instead of being skipped: after one
unfinished pass the next firing raises the in-flight count to 2. -/
theorem C7_two_detection_passes_in_flight :
    (run [Event.modelsReady, Event.streamStarted, Event.detTick true] initialSys).detPending
        = 1 ∧
    (run [Event.modelsReady, Event.streamStarted, Event.detTick true, Event.detTick true]
        initialSys).detPending = 2 := by
  decide

/-! ### Claim C8 -/

/-- One step of a stopped controller: with `isActive = false` and no
interval installed, any event other than `startAutoRecognition` leaves the
controller inactive and the timer uninstalled, and issues no new
recognition request. -/
theorem step_preserves_stopped (e : Event) (s : SysState)
    (hA : s.page.auto.isActive = false) (hT : s.autoTimer = none)
    (hne : e ≠ Event.startAuto) :
    (step e s).page.auto.isActive = false ∧ (step e s).autoTimer = none ∧
    (step e s).pending.length ≤ s.pending.length := by
  have key : (applyEvent e s).page.auto.isActive = false ∧
      (applyEvent e s).autoTimer = none ∧
      (applyEvent e s).pending.length ≤ s.pending.length := by
    cases e with
    | tick now cap =>
      have happ : applyEvent (Event.tick now cap) s = s := by
        simp only [applyEvent, hT]
      rw [happ]
      exact ⟨hA, hT, le_refl _⟩
    | respond outcome =>
      simp only [applyEvent]
      cases hp : s.pending with
      | nil => exact ⟨hA, hT, by simp [hp]⟩
      | cons t rest =>
        refine ⟨performAutoRecognitionResponse_isActive t outcome s.page hA, ?_, Nat.le_succ _⟩
        cases outcome with
        | error => exact hT
        | ok resp =>
          by_cases hrec : okRecognized resp = true
          · simp [hrec]
          · simp [hrec, hT]
    | fireTimeout =>
      simp only [applyEvent]
      cases hp : s.timeouts with
      | nil => exact ⟨hA, hT, le_refl _⟩
      | cons ta rest =>
        obtain ⟨d, a⟩ := ta
        rw [runTimeout_auto]
        exact ⟨hA, hT, le_refl _⟩
    | detTick b =>
      simp only [applyEvent]
      by_cases hg : (s.detectionTimer && b && s.page.modelsLoaded && s.page.isStreaming) = true
      · rw [if_pos hg]; exact ⟨hA, hT, le_refl _⟩
      · rw [if_neg hg]; exact ⟨hA, hT, le_refl _⟩
    | detDone faces =>
      simp only [applyEvent]
      by_cases hg : 0 < s.detPending
      · rw [if_pos hg]; exact ⟨hA, hT, le_refl _⟩
      · rw [if_neg hg]; exact ⟨hA, hT, le_refl _⟩
    | startAuto => exact absurd rfl hne
    | stopAuto => exact ⟨rfl, rfl, le_refl _⟩
    | stopStreamEv => exact ⟨hA, hT, le_refl _⟩
    | streamStarted => exact ⟨hA, hT, le_refl _⟩
    | modelsReady => exact ⟨hA, hT, le_refl _⟩
  refine ⟨key.1, ?_, key.2.2⟩
  show (syncEffects (applyEvent e s)).autoTimer = none
  unfold syncEffects
  by_cases hd : autoDepsOf (applyEvent e s).page = (applyEvent e s).autoDeps
  · rw [if_pos hd]
    exact key.2.1
  · rw [if_neg hd, if_neg]
    rw [key.1]
    simp

/-- A stopped controller stays stopped along any event sequence that does
not contain `startAutoRecognition`, and its in-flight request count never
grows. -/
theorem run_preserves_stopped (es : List Event) : ∀ (s : SysState),
    s.page.auto.isActive = false → s.autoTimer = none →
    (∀ e ∈ es, e ≠ Event.startAuto) →
    (run es s).page.auto.isActive = false ∧ (run es s).autoTimer = none ∧
    (run es s).pending.length ≤ s.pending.length := by
  induction es with
  | nil => exact fun s hA hT _ => ⟨hA, hT, le_refl _⟩
  | cons e es ih =>
    intro s hA hT hne
    have h1 := step_preserves_stopped e s hA hT (hne e (by simp))
    have h2 := ih (step e s) h1.1 h1.2.1 (fun x hx => hne x (by simp [hx]))
    exact ⟨h2.1, h2.2.1, h2.2.2.trans h1.2.2⟩

/-- C8: a response with `recognized = true` (1) sets the status to
Recognized, unlocks the door, sets `isActive = false`, and schedules
exactly one relock timeout with the fixed 5000 ms settle duration;
(2) firing that timeout returns the door to locked and the status to Idle;
(3) once the controller is inactive with its interval uninstalled (as it is
after the success: `stopAutoRecognition` clears the interval through the
ref and the effect flush keeps it cleared), no event sequence without an
explicit `startAutoRecognition` ever reactivates it or issues a new
recognition request. -/
theorem C8_success_unlocks_and_stops :
    (∀ (reqTime : Nat) (p : PageState) (r : FaceRecognitionResult),
        r.recognized = true →
        (performAutoRecognitionResponse reqTime
            (ApiOutcome.ok { success := true, result := some r }) p).1.recognitionStatus
            = RecognitionStatus.recognized ∧
        (performAutoRecognitionResponse reqTime
            (ApiOutcome.ok { success := true, result := some r }) p).1.doorStatus
            = DoorStatus.unlocked ∧
        (performAutoRecognitionResponse reqTime
            (ApiOutcome.ok { success := true, result := some r }) p).1.auto.isActive
            = false ∧
        (performAutoRecognitionResponse reqTime
            (ApiOutcome.ok { success := true, result := some r }) p).2
            = [(5000, TimeoutAction.relock)]) ∧
    (∀ (p : PageState),
        (runTimeout TimeoutAction.relock p).doorStatus = DoorStatus.locked ∧
        (runTimeout TimeoutAction.relock p).recognitionStatus = RecognitionStatus.idle) ∧
    (∀ (es : List Event) (s : SysState),
        s.page.auto.isActive = false → s.autoTimer = none →
        (∀ e ∈ es, e ≠ Event.startAuto) →
        (run es s).page.auto.isActive = false ∧
        (run es s).pending.length ≤ s.pending.length) := by
  refine ⟨?_, fun p => ⟨rfl, rfl⟩, ?_⟩
  · intro reqTime p r hr
    unfold performAutoRecognitionResponse
    simp [hr, stopAutoRecognition]
  · intro es s hA hT hne
    exact ⟨(run_preserves_stopped es s hA hT hne).1,
      (run_preserves_stopped es s hA hT hne).2.2⟩

/-- C8 witness: the theorem at a concrete recognized response and at the
concrete stopped initial state. -/
theorem C8_witness :
    ({ recognized := true, name := some "Bob" } : FaceRecognitionResult).recognized = true ∧
    (performAutoRecognitionResponse 10000
        (ApiOutcome.ok { success := true, result := some { recognized := true, name := some "Bob" } })
        initialPage).1.doorStatus = DoorStatus.unlocked ∧
    (run [Event.tick 11000 (some "img"), Event.tick 12000 (some "img")] initialSys).pending.length
      ≤ initialSys.pending.length :=
  ⟨rfl,
    (C8_success_unlocks_and_stops.1 10000 initialPage
      { recognized := true, name := some "Bob" } rfl).2.1,
    (C8_success_unlocks_and_stops.2.2
      [Event.tick 11000 (some "img"), Event.tick 12000 (some "img")] initialSys rfl rfl
      (by decide)).2⟩

/-! ### Claim C9 -/

/-- C9: the Enrollment Sequencer.  (1) A capture step whose service call
succeeds appends the current catalog entry's variation value and advances
the index by exactly one; (2) a failed capture (`captureImage` returning
null), a service call resolving false, and a thrown service error all leave
the session state unchanged, so the same step can be retried; (3) starting
a fresh session and performing seven consecutive service-success captures
yields a completed session (`currentVariationIndex = catalog length`) whose
`capturedVariations` equals the catalog's variation values in original
order. -/
theorem C9_enrollment_sequencer :
    (∀ (s : EnrollState) (img : String) (v : Variation),
        VARIATION_TYPES.get? s.currentVariationIndex = some v →
        captureNextVariation (some img) EnrollOutcome.svcSuccess s =
          { s with
            capturedVariations := s.capturedVariations ++ [v.value]
            currentVariationIndex := s.currentVariationIndex + 1 }) ∧
    (∀ (s : EnrollState) (img : String),
        s.currentVariationIndex < VARIATION_TYPES.length →
        captureNextVariation none EnrollOutcome.svcSuccess s = s ∧
        captureNextVariation (some img) EnrollOutcome.svcFailure s = s ∧
        captureNextVariation (some img) EnrollOutcome.svcError s = s) ∧
    ((captureSuccessIter "img" 7 (startMultiVariationCapture "Alice" idleEnroll)).capturedVariations
        = VARIATION_TYPES.map (fun v => v.value) ∧
      (captureSuccessIter "img" 7 (startMultiVariationCapture "Alice" idleEnroll)).currentVariationIndex
        = VARIATION_TYPES.length) := by
  refine ⟨?_, ?_, by decide⟩
  · intro s img v hv
    have hlt : ¬ (VARIATION_TYPES.length ≤ s.currentVariationIndex) := by
      intro hle
      rw [List.get?_eq_none.mpr hle] at hv
      cases hv
    unfold captureNextVariation
    rw [if_neg hlt, hv]
  · intro s img hlt
    have h : ¬ (VARIATION_TYPES.length ≤ s.currentVariationIndex) := Nat.not_le.mpr hlt
    refine ⟨?_, ?_, ?_⟩ <;> (unfold captureNextVariation; rw [if_neg h])

/-- C9 witness: the first capture of a fresh session appends the first
catalog entry. -/
theorem C9_witness :
    VARIATION_TYPES.get?
        (startMultiVariationCapture "Alice" idleEnroll).currentVariationIndex
      = some { value := "default", label := "Mặc định",
               description := "Ảnh thường, nhìn thẳng" } ∧
    captureNextVariation (some "img") EnrollOutcome.svcSuccess
        (startMultiVariationCapture "Alice" idleEnroll) =
      { startMultiVariationCapture "Alice" idleEnroll with
        capturedVariations :=
          (startMultiVariationCapture "Alice" idleEnroll).capturedVariations ++ ["default"]
        currentVariationIndex :=
          (startMultiVariationCapture "Alice" idleEnroll).currentVariationIndex + 1 } :=
  ⟨rfl,
    C9_enrollment_sequencer.1 (startMultiVariationCapture "Alice" idleEnroll) "img"
      { value := "default", label := "Mặc định", description := "Ảnh thường, nhìn thẳng" } rfl⟩

/-! ### Claim C10 -/

/-- C10: `captureImage` (the Device Resource Manager's `captureFrame()`)
(1) returns an encoded still image only if streaming is true, the video
element exists with `readyState ≥ 2` (metadata loaded), and both dimensions
are non-zero; and in every other case it returns none: (2) when not
streaming, (3) when there is no video element, (4) when the metadata is not
loaded, (5) when a dimension is zero.  The function is total — every
failure, including the caught drawing exception, is the normal `none`
outcome, never an error escaping its boundary. -/
theorem C10_captureFrame_guards :
    (∀ (video : Option VideoElement) (streaming : Bool) (env : CanvasEnv) (d : String),
        captureImage video streaming env = some d →
        streaming = true ∧ ∃ v, video = some v ∧ 2 ≤ v.readyState ∧
          v.videoWidth ≠ 0 ∧ v.videoHeight ≠ 0) ∧
    (∀ (video : Option VideoElement) (env : CanvasEnv),
        captureImage video false env = none) ∧
    (∀ (streaming : Bool) (env : CanvasEnv), captureImage none streaming env = none) ∧
    (∀ (v : VideoElement) (streaming : Bool) (env : CanvasEnv),
        v.readyState < 2 → captureImage (some v) streaming env = none) ∧
    (∀ (v : VideoElement) (streaming : Bool) (env : CanvasEnv),
        v.videoWidth = 0 ∨ v.videoHeight = 0 → captureImage (some v) streaming env = none) := by
  refine ⟨?_, ?_, fun streaming env => rfl, ?_, ?_⟩
  · intro video streaming env d h
    cases video with
    | none => exact absurd h (by simp [captureImage])
    | some v =>
      simp only [captureImage] at h
      split_ifs at h with h1 h2 h3 h4 h5 h6 <;> try simp at h
      refine ⟨?_, v, rfl, Nat.not_lt.mp h3, fun hw => h4 (Or.inl hw),
        fun hh => h4 (Or.inr hh)⟩
      cases streaming with
      | false => exact absurd rfl h1
      | true => rfl
  · intro video env
    cases video with
    | none => rfl
    | some v => simp [captureImage]
  · intro v streaming env h
    simp only [captureImage]
    split_ifs <;> rfl
  · intro v streaming env h
    simp only [captureImage]
    split_ifs <;> rfl

/-- C10 witness: the metadata guard at a concrete video element whose
`readyState` is below 2. -/
theorem C10_witness :
    ({ videoWidth := 640, videoHeight := 480, readyState := 1, paused := false,
        ended := false, frameData := "jpeg" } : VideoElement).readyState < 2 ∧
    captureImage
        (some { videoWidth := 640, videoHeight := 480, readyState := 1, paused := false,
                ended := false, frameData := "jpeg" })
        true { ctxAvailable := true, drawThrows := false } = none :=
  ⟨by decide,
    C10_captureFrame_guards.2.2.2.1
      { videoWidth := 640, videoHeight := 480, readyState := 1, paused := false,
        ended := false, frameData := "jpeg" }
      true { ctxAvailable := true, drawThrows := false } (by decide)⟩

end SmartDoor
